import Mathlib

/-!
Shallow embedding of the feature-engineering and classification pipeline of
`src/challenge/model.py` (class `DelayModel`) together with the record shape
used by its caller `src/challenge/api.py`.

Python `datetime` values (whole seconds, proleptic Gregorian calendar) are
modelled by the structure `DT`; Python's component-wise comparison of
`datetime`/`time` objects is modelled by explicit lexicographic orders.
Machine floats only ever arise as `total_seconds()/60` of an integral number
of seconds compared against the integer 15, a comparison that coincides with
the exact rational one, so minute differences are modelled in `ℚ`.
-/

/-- A parsed `datetime` value as produced by
`datetime.strptime(s, "%Y-%m-%d %H:%M:%S")`. -/
structure DT where
  year : Nat
  month : Nat
  day : Nat
  hour : Nat
  minute : Nat
  second : Nat
  deriving DecidableEq, Repr

/-- Python `datetime.__le__`: lexicographic comparison of the components. -/
def DT.le (a b : DT) : Prop :=
  a.year < b.year ∨ (a.year = b.year ∧
    (a.month < b.month ∨ (a.month = b.month ∧
      (a.day < b.day ∨ (a.day = b.day ∧
        (a.hour < b.hour ∨ (a.hour = b.hour ∧
          (a.minute < b.minute ∨ (a.minute = b.minute ∧
            a.second ≤ b.second)))))))))

instance (a b : DT) : Decidable (DT.le a b) :=
  inferInstanceAs (Decidable (_ ∨ _))

/-- The time-of-day part of a datetime, as returned by `.time()`. -/
structure TimeHMS where
  hour : Nat
  minute : Nat
  second : Nat
  deriving DecidableEq, Repr

/-- Python `time.__lt__`: lexicographic comparison of the components. -/
def TimeHMS.lt (a b : TimeHMS) : Prop :=
  a.hour < b.hour ∨ (a.hour = b.hour ∧
    (a.minute < b.minute ∨ (a.minute = b.minute ∧
      a.second < b.second)))

instance (a b : TimeHMS) : Decidable (TimeHMS.lt a b) :=
  inferInstanceAs (Decidable (_ ∨ _))

/-- Time of day in seconds since midnight. -/
def TimeHMS.toSecs (t : TimeHMS) : Nat :=
  t.hour * 3600 + t.minute * 60 + t.second

def DT.timeOfDay (d : DT) : TimeHMS := ⟨d.hour, d.minute, d.second⟩

/-- Gregorian leap-year rule used by Python's `datetime` module. -/
def isLeap (y : Nat) : Bool :=
  (y % 4 = 0 && y % 100 ≠ 0) || y % 400 = 0

/-- Number of days in month `m` of year `y`. -/
def daysInMonth (y m : Nat) : Nat :=
  if m = 2 then (if isLeap y then 29 else 28)
  else if m = 4 ∨ m = 6 ∨ m = 9 ∨ m = 11 then 30
  else 31

/-- Days in year `y` strictly before month `m`. -/
def daysBeforeMonth (y m : Nat) : Nat :=
  (List.range (m - 1)).foldl (fun acc i => acc + daysInMonth y (i + 1)) 0

/-- Python `date.toordinal`: day number in the proleptic Gregorian calendar,
with `0001-01-01` being day 1. -/
def toOrdinal (y m d : Nat) : Nat :=
  365 * (y - 1) + (y - 1) / 4 - (y - 1) / 100 + (y - 1) / 400
    + daysBeforeMonth y m + d

/-- Absolute time of a datetime in seconds (whole seconds only, as produced
by `%Y-%m-%d %H:%M:%S` parsing); datetime subtraction in the source is the
difference of these values. -/
def DT.toSecs (d : DT) : Nat :=
  toOrdinal d.year d.month d.day * 86400
    + d.hour * 3600 + d.minute * 60 + d.second

/-- Split a character list at every occurrence of the separator `c`. -/
def splitOnChar (c : Char) : List Char → List (List Char)
  | [] => [[]]
  | x :: xs =>
    match splitOnChar c xs, decide (x = c) with
    | r, true => [] :: r
    | [], false => [[x]]
    | g :: gs, false => (x :: g) :: gs

/-- Read a nonempty all-digit character list as a natural number. -/
def digitsToNat? (l : List Char) : Option Nat :=
  if l ≠ [] ∧ l.all Char.isDigit then
    some (l.foldl (fun acc ch => acc * 10 + (ch.toNat - 48)) 0)
  else none

/-- `datetime.strptime(s, "%Y-%m-%d %H:%M:%S")`: split the string into its
six numeric fields and range-check them (day checked against the month's
length, as `strptime` does); `none` models the `ValueError` raised on a
malformed timestamp. -/
def parseDateTime (s : String) : Option DT :=
  match splitOnChar ' ' s.data with
  | [datePart, timePart] =>
    match splitOnChar '-' datePart, splitOnChar ':' timePart with
    | [ys, ms, ds], [hs, mis, ss] =>
      match digitsToNat? ys, digitsToNat? ms, digitsToNat? ds,
          digitsToNat? hs, digitsToNat? mis, digitsToNat? ss with
      | some y, some m, some d, some h, some mi, some sec =>
        if 1 ≤ y ∧ 1 ≤ m ∧ m ≤ 12 ∧ 1 ≤ d ∧ d ≤ daysInMonth y m
            ∧ h ≤ 23 ∧ mi ≤ 59 ∧ sec ≤ 59 then
          some ⟨y, m, d, h, mi, sec⟩
        else none
      | _, _, _, _, _, _ => none
    | _, _ => none
  | _ => none

/-- `DelayModel._get_period_day` (src/challenge/model.py lines 28-46) on the
time-of-day of the parsed timestamp: strict comparisons against the eight
anchor times; the fall-through with no `return` (Python `None`) is `none`. -/
def get_period_day (t : TimeHMS) : Option String :=
  if TimeHMS.lt ⟨5, 0, 0⟩ t ∧ TimeHMS.lt t ⟨11, 59, 0⟩ then
    some "mañana"
  else if TimeHMS.lt ⟨12, 0, 0⟩ t ∧ TimeHMS.lt t ⟨18, 59, 0⟩ then
    some "tarde"
  else if (TimeHMS.lt ⟨19, 0, 0⟩ t ∧ TimeHMS.lt t ⟨23, 59, 0⟩)
      ∨ (TimeHMS.lt ⟨0, 0, 0⟩ t ∧ TimeHMS.lt t ⟨4, 59, 0⟩) then
    some "noche"
  else
    none

/-- `DelayModel._is_high_season` (src/challenge/model.py lines 48-67): the
eight range endpoints are parsed from `"%d-%b"` strings, so they carry time
00:00:00, and are compared (after `replace(year=...)` with the input's own
year) against the full parsed datetime with Python's datetime order. -/
def is_high_season (dt : DT) : Nat :=
  if (DT.le ⟨dt.year, 12, 15, 0, 0, 0⟩ dt ∧ DT.le dt ⟨dt.year, 12, 31, 0, 0, 0⟩)
      ∨ (DT.le ⟨dt.year, 1, 1, 0, 0, 0⟩ dt ∧ DT.le dt ⟨dt.year, 3, 3, 0, 0, 0⟩)
      ∨ (DT.le ⟨dt.year, 7, 15, 0, 0, 0⟩ dt ∧ DT.le dt ⟨dt.year, 7, 31, 0, 0, 0⟩)
      ∨ (DT.le ⟨dt.year, 9, 11, 0, 0, 0⟩ dt ∧ DT.le dt ⟨dt.year, 9, 30, 0, 0, 0⟩) then
    1
  else
    0

/-- `_is_high_season` applied to a raw timestamp string (the year is read
from the string itself and the ranges are evaluated against it); `none`
models the exception raised on an unparseable string. -/
def is_high_season_str (s : String) : Option Nat :=
  (parseDateTime s).map is_high_season

/-- `DelayModel._get_min_diff` (src/challenge/model.py lines 69-74):
`(fecha_o - fecha_i).total_seconds() / 60`, a possibly negative number of
minutes.  The seconds difference is an integer, so the float division by 60
compares against 15 exactly as the rational division does. -/
def get_min_diff (fechaI fechaO : DT) : ℚ :=
  ((fechaO.toSecs : ℚ) - (fechaI.toSecs : ℚ)) / 60

/-- One raw input row as consumed by `preprocess`.  `OPERA`, `TIPOVUELO` and
`MES` are always present (the API validates them); the two departure
timestamp columns may be absent (`none`).  The other columns the API adds
(`Vlo-I`, `DIA`, ...) are never read by `preprocess` and are not modelled. -/
structure RawRecord where
  opera : String
  tipovuelo : String
  mes : Nat
  fechaI : Option String
  fechaO : Option String
  deriving DecidableEq, Repr

/-- A one-hot indicator column name, `PREFIX_value` in the source
(`pd.get_dummies(..., prefix=...)`); the three prefixes `OPERA_`, `MES_`
and `TIPOVUELO_` are distinct, which the constructors capture. -/
inductive Col where
  | opera (v : String)
  | mes (n : Nat)
  | tipovuelo (v : String)
  deriving DecidableEq, Repr

/-- `DelayModel._feature_columns` (src/challenge/model.py lines 15-26): the
fixed 10-slot contract, in order. -/
def feature_columns : List Col :=
  [Col.opera "Latin American Wings",
   Col.mes 7,
   Col.mes 10,
   Col.opera "Grupo LATAM",
   Col.mes 12,
   Col.tipovuelo "I",
   Col.mes 4,
   Col.mes 11,
   Col.opera "Sky Airline",
   Col.opera "Copa Air"]

/-- Value of the one-hot column `c` at row `r`: 1 iff the row's field equals
the column's category value. -/
def rowVal (r : RawRecord) (c : Col) : ℚ :=
  match c with
  | Col.opera v => if r.opera = v then 1 else 0
  | Col.mes n => if r.mes = n then 1 else 0
  | Col.tipovuelo v => if r.tipovuelo = v then 1 else 0

/-- The columns of `pd.concat([opera_dummies, mes_dummies, tipovuelo_dummies],
axis=1)` for a batch: one column per distinct value appearing in the batch,
per prefix. -/
def dummyCols (batch : List RawRecord) : List Col :=
  (batch.map (fun r => Col.opera r.opera)).dedup
    ++ (batch.map (fun r => Col.mes r.mes)).dedup
    ++ (batch.map (fun r => Col.tipovuelo r.tipovuelo)).dedup

/-- `features.reindex(columns=self._feature_columns, fill_value=0)` at one
row: a contract column keeps its one-hot value when the batch generated it
and is filled with 0 otherwise. -/
def reindexRow (batch : List RawRecord) (r : RawRecord) : List ℚ :=
  feature_columns.map (fun c => if c ∈ dummyCols batch then rowVal r c else 0)

/-- Errors `preprocess` can raise: a `KeyError` for an absent required
column (the spec's MissingFieldError) and a `ValueError`/`TypeError` from
`strptime` on a cell that is not a well-formed timestamp string (the spec's
FormatError). -/
inductive PErr where
  | missingField
  | format
  deriving DecidableEq, Repr

/-- One `Series.apply`-style pass over a timestamp column: `Except.error
.missingField` when no record carries the field (the column is absent from
the frame, so indexing it raises `KeyError`); otherwise the rows are parsed
in order and the first unparseable (or absent, hence NaN) cell raises the
format error. -/
def parseColAux (get : RawRecord → Option String) : List RawRecord → Except PErr (List DT)
  | [] => Except.ok []
  | r :: rs =>
    match get r with
    | none => Except.error PErr.format
    | some s =>
      match parseDateTime s with
      | none => Except.error PErr.format
      | some dt =>
        match parseColAux get rs with
        | Except.error e => Except.error e
        | Except.ok ds => Except.ok (dt :: ds)

def parseCol (batch : List RawRecord) (get : RawRecord → Option String) :
    Except PErr (List DT) :=
  if batch.any (fun r => (get r).isSome) then parseColAux get batch
  else Except.error PErr.missingField

/-- `DelayModel.preprocess` (src/challenge/model.py lines 76-126).  The
passes mirror the source order: `period_day` and `high_season` each parse
the `Fecha-I` column, `min_diff` parses `Fecha-O` and `Fecha-I` (their
values feed only the optional `delay` target); the returned features are
the reindexed one-hot columns.  Selecting a target column other than the
`delay` column the method itself creates is modelled as the `KeyError` it
raises in the intended flow (no claim exercises another existing column). -/
def preprocess (batch : List RawRecord) (targetColumn : Option String) :
    Except PErr (List (List ℚ) × Option (List Int)) :=
  match parseCol batch (fun r => r.fechaI) with
  | Except.error e => Except.error e
  | Except.ok _ =>
    match parseCol batch (fun r => r.fechaI) with
    | Except.error e => Except.error e
    | Except.ok _ =>
      match parseCol batch (fun r => r.fechaO) with
      | Except.error e => Except.error e
      | Except.ok fo =>
        match parseCol batch (fun r => r.fechaI) with
        | Except.error e => Except.error e
        | Except.ok fi =>
          let minDiff := List.zipWith (fun i o => get_min_diff i o) fi fo
          let feats := batch.map (reindexRow batch)
          match targetColumn with
          | none => Except.ok (feats, none)
          | some tc =>
            if tc = "delay" then
              Except.ok (feats,
                some (minDiff.map (fun md => if (15 : ℚ) < md then (1 : Int) else 0)))
            else Except.error PErr.missingField

/-- The spec's direct-lookup reading of the projection (design note §9 of
the specification): one slot per contract column, set exactly when the
record's field carries the slot's category value.  Stated from the spec's
words; compared against the source's reindex-based `preprocess` by the
theorems below. -/
def contractVec (r : RawRecord) : List ℚ :=
  [if r.opera = "Latin American Wings" then 1 else 0,
   if r.mes = 7 then 1 else 0,
   if r.mes = 10 then 1 else 0,
   if r.opera = "Grupo LATAM" then 1 else 0,
   if r.mes = 12 then 1 else 0,
   if r.tipovuelo = "I" then 1 else 0,
   if r.mes = 4 then 1 else 0,
   if r.mes = 11 then 1 else 0,
   if r.opera = "Sky Airline" then 1 else 0,
   if r.opera = "Copa Air" then 1 else 0]

/-- Both timestamp fields of the record are present and parseable. -/
def recParses (r : RawRecord) : Bool :=
  (r.fechaI.bind parseDateTime).isSome && (r.fechaO.bind parseDateTime).isSome

/-- Insert an `Int` into a sorted duplicate-free list, keeping it sorted and
duplicate-free. -/
def insertUnique (a : Int) : List Int → List Int
  | [] => [a]
  | b :: bs =>
    if a < b then a :: b :: bs
    else if a = b then b :: bs
    else b :: insertUnique a bs

/-- `np.unique(y)`: the distinct labels in ascending order. -/
def uniqueSorted (y : List Int) : List Int :=
  y.foldr insertUnique []

/-- `len(target[target['delay'] == l])`: occurrences of label `l`. -/
def countLabel (y : List Int) (l : Int) : Nat :=
  (y.filter (fun v => v = l)).length

/-- Constructor arguments of `LogisticRegression(class_weight={1: n_y0/len,
0: n_y1/len}, random_state=42)` (src/challenge/model.py lines 145-148). -/
structure LogRegConfig where
  classWeight1 : ℚ
  classWeight0 : ℚ
  randomState : Nat
  deriving DecidableEq, Repr

/-- State of a scikit-learn estimator after a successful `fit`: the sorted
distinct class labels (`classes_`), and the learned coefficient matrix and
intercept vector (one row per decision function). -/
structure FittedState where
  classes : List Int
  coef : List (List ℚ)
  intercept : List ℚ
  deriving DecidableEq, Repr

/-- A `LogisticRegression` object: its constructor configuration plus its
fitted state (`none` until its `fit` succeeds). -/
structure SkLogReg where
  config : LogRegConfig
  fitted : Option FittedState
  deriving DecidableEq, Repr

/-- The `_model` attribute of `DelayModel`: `None` until the first `fit`
call assigns a classifier. -/
abbrev DelayModel := Option SkLogReg

/-- Failures raised while fitting: the `ZeroDivisionError` from the
class-weight expressions `n_y0/len(target)` on an empty target (raised
before the classifier is constructed), and the `ValueError`s raised inside
`LogisticRegression.fit`. -/
inductive FitErr where
  | zeroDivision
  | lengthMismatch
  | emptyData
  | singleClass
  | classWeight
  deriving DecidableEq, Repr

/-- The distinct labels of `y` that are not keys of the class-weight dict
`{1: ..., 0: ...}` (scikit-learn's `unweighted_classes`). -/
def badClasses (y : List Int) : List Int :=
  (uniqueSorted y).filter (fun c => decide (c ≠ 0 ∧ c ≠ 1))

/-- Validation performed by `LogisticRegression.fit` (scikit-learn, the
external library the source delegates to, modelled from its documented
behaviour): sample-count consistency and non-emptiness of `X`/`y` first;
then at least two distinct classes; then the dict class-weight consistency
check of `compute_class_weight` — with dict keys `{0, 1}` it raises exactly
when some class is unweighted and the number of weighted classes differs
from the dict size 2 (so a label set strictly containing `{0,1}` passes).
On success it returns `classes_ = np.unique(y)`. -/
def sklearnFitCheck (X : List (List ℚ)) (y : List Int) : Except FitErr (List Int) :=
  if X.length ≠ y.length then Except.error FitErr.lengthMismatch
  else if X.length = 0 then Except.error FitErr.emptyData
  else if (uniqueSorted y).length < 2 then Except.error FitErr.singleClass
  else if badClasses y ≠ [] ∧ (uniqueSorted y).length - (badClasses y).length ≠ 2 then
    Except.error FitErr.classWeight
  else Except.ok (uniqueSorted y)

/-- The iterative numeric optimizer inside `LogisticRegression.fit`
(L-BFGS over floats), which this embedding does not reproduce: theorems
about `fit`/`predict` quantify over every function of this type, so they
hold in particular for the library's actual optimizer output. -/
abbrev Optimizer := List (List ℚ) → List Int → List (List ℚ) × List ℚ

/-- `DelayModel.fit` (src/challenge/model.py lines 128-151): computes the
class weights (raising on an empty target), then assigns a fresh classifier
to `self._model` — before training it — and finally runs the library fit,
which either fails (leaving the assigned classifier unfitted) or stores the
fitted state.  Returns the new `_model` attribute and the call's outcome. -/
def DelayModel.fit (opt : Optimizer) (st : DelayModel) (X : List (List ℚ))
    (y : List Int) : DelayModel × Except FitErr Unit :=
  if y.length = 0 then (st, Except.error FitErr.zeroDivision)
  else
    let cfg : LogRegConfig :=
      ⟨(countLabel y 0 : ℚ) / (y.length : ℚ),
       (countLabel y 1 : ℚ) / (y.length : ℚ), 42⟩
    match sklearnFitCheck X y with
    | Except.error e => (some ⟨cfg, none⟩, Except.error e)
    | Except.ok classes =>
      (some ⟨cfg, some ⟨classes, (opt X y).1, (opt X y).2⟩⟩, Except.ok ())

/-- Dot product of a weight row with a feature vector. -/
def dotQ (w x : List ℚ) : ℚ :=
  (List.zipWith (fun a b => a * b) w x).sum

/-- `np.argmax` over a list of scores (first index on ties, 0 on empty). -/
def idxOfMax : List ℚ → Nat
  | [] => 0
  | v :: rest =>
    if rest.isEmpty then 0
    else
      let j := idxOfMax rest
      if v < rest.getD j 0 then j + 1 else 0

/-- Index into `classes_` chosen by `LogisticRegression.predict`: for the
binary single-row shape, 1 exactly when the decision function is positive;
otherwise the argmax of the per-class scores. -/
def decisionIndex (f : FittedState) (x : List ℚ) : Nat :=
  match f.coef, f.intercept with
  | [w], [b] => if 0 < dotQ w x + b then 1 else 0
  | ws, bs => idxOfMax (List.zipWith (fun w b => dotQ w x + b) ws bs)

/-- One prediction: the element of `classes_` at the decision index. -/
def skPredictOne (f : FittedState) (x : List ℚ) : Int :=
  f.classes.getD (decisionIndex f x) 0

/-- Failures raised by `DelayModel.predict`: the source's own
`ValueError("Model has not been fitted yet. Call fit() first.")` when
`_model` is `None`, and scikit-learn's `NotFittedError` when `_model` holds
a classifier whose training never completed. -/
inductive PredErr where
  | unfittedModelError
  | notFittedError
  deriving DecidableEq, Repr

/-- `DelayModel.predict` (src/challenge/model.py lines 153-170): guard on
`_model is None`, then the library prediction, one label per row in input
order (`predictions.tolist()`). -/
def DelayModel.predict (st : DelayModel) (X : List (List ℚ)) :
    Except PredErr (List Int) :=
  match st with
  | none => Except.error PredErr.unfittedModelError
  | some m =>
    match m.fitted with
    | none => Except.error PredErr.notFittedError
    | some f => Except.ok (X.map (skPredictOne f))

example : parseDateTime "2023-12-31 12:00:00" = some ⟨2023, 12, 31, 12, 0, 0⟩ := by decide
example : is_high_season_str "2023-12-31 12:00:00" = some 0 := by decide
example : is_high_season ⟨2023, 12, 20, 0, 0, 0⟩ = 1 := by decide
example : is_high_season ⟨2023, 3, 3, 0, 0, 0⟩ = 1 := by decide
example : is_high_season ⟨2023, 3, 3, 0, 0, 1⟩ = 0 := by decide
example : get_period_day ⟨5, 0, 0⟩ = none := by decide
example : get_period_day ⟨6, 0, 0⟩ = some "mañana" := by decide

section Helpers

lemma ite_one_zero_eq_one {p : Prop} [Decidable p] :
    (if p then (1 : Nat) else 0) = 1 ↔ p := by
  split <;> simp [*]

lemma DT.le_mk (y1 m1 d1 h1 mi1 s1 y2 m2 d2 h2 mi2 s2 : Nat) :
    DT.le ⟨y1, m1, d1, h1, mi1, s1⟩ ⟨y2, m2, d2, h2, mi2, s2⟩ ↔
      (y1 < y2 ∨ (y1 = y2 ∧ (m1 < m2 ∨ (m1 = m2 ∧
        (d1 < d2 ∨ (d1 = d2 ∧ (h1 < h2 ∨ (h1 = h2 ∧
          (mi1 < mi2 ∨ (mi1 = mi2 ∧ s1 ≤ s2)))))))))) :=
  Iff.rfl

lemma TimeHMS.lt_mk (h1 mi1 s1 h2 mi2 s2 : Nat) :
    TimeHMS.lt ⟨h1, mi1, s1⟩ ⟨h2, mi2, s2⟩ ↔
      (h1 < h2 ∨ (h1 = h2 ∧ (mi1 < mi2 ∨ (mi1 = mi2 ∧ s1 < s2)))) :=
  Iff.rfl

lemma mem_dummyCols_of_rowVal_ne_zero {batch : List RawRecord} {r : RawRecord}
    (hr : r ∈ batch) {c : Col} (h : rowVal r c ≠ 0) : c ∈ dummyCols batch := by
  rcases c with v | n | v
  · have hv : r.opera = v := by
      by_contra hne
      simp [rowVal, hne] at h
    simp only [dummyCols, List.mem_append, List.mem_dedup, List.mem_map]
    exact Or.inl (Or.inl ⟨r, hr, by rw [hv]⟩)
  · have hv : r.mes = n := by
      by_contra hne
      simp [rowVal, hne] at h
    simp only [dummyCols, List.mem_append, List.mem_dedup, List.mem_map]
    exact Or.inl (Or.inr ⟨r, hr, by rw [hv]⟩)
  · have hv : r.tipovuelo = v := by
      by_contra hne
      simp [rowVal, hne] at h
    simp only [dummyCols, List.mem_append, List.mem_dedup, List.mem_map]
    exact Or.inr ⟨r, hr, by rw [hv]⟩

lemma reindexRow_eq_of_mem {batch : List RawRecord} {r : RawRecord}
    (hr : r ∈ batch) : reindexRow batch r = feature_columns.map (rowVal r) := by
  unfold reindexRow
  apply List.map_congr_left
  intro c _
  by_cases hmem : c ∈ dummyCols batch
  · simp [hmem]
  · rcases eq_or_ne (rowVal r c) 0 with hz | hz
    · simp [hmem, hz]
    · exact absurd (mem_dummyCols_of_rowVal_ne_zero hr hz) hmem

lemma map_rowVal_eq_contractVec (r : RawRecord) :
    feature_columns.map (rowVal r) = contractVec r := rfl

lemma map_reindexRow_eq (batch : List RawRecord) :
    batch.map (reindexRow batch) = batch.map contractVec :=
  List.map_congr_left fun r hr =>
    (reindexRow_eq_of_mem hr).trans (map_rowVal_eq_contractVec r)

lemma recParses_fechaI {r : RawRecord} (h : recParses r = true) :
    (r.fechaI.bind parseDateTime).isSome = true := by
  simp only [recParses, Bool.and_eq_true] at h
  exact h.1

lemma recParses_fechaO {r : RawRecord} (h : recParses r = true) :
    (r.fechaO.bind parseDateTime).isSome = true := by
  simp only [recParses, Bool.and_eq_true] at h
  exact h.2

lemma parseColAux_ok {get : RawRecord → Option String} :
    ∀ {batch : List RawRecord},
      (∀ r ∈ batch, ((get r).bind parseDateTime).isSome = true) →
      ∃ ds, parseColAux get batch = Except.ok ds
  | [], _ => ⟨[], rfl⟩
  | r :: rs, h => by
    have hr := h r (List.mem_cons_self r rs)
    cases hg : get r with
    | none => rw [hg] at hr; simp at hr
    | some s =>
      rw [hg] at hr
      cases hps : parseDateTime s with
      | none => simp [hps] at hr
      | some dt =>
        obtain ⟨ds, hds⟩ :=
          parseColAux_ok (fun x hx => h x (List.mem_cons_of_mem r hx))
        exact ⟨dt :: ds, by simp [parseColAux, hg, hps, hds]⟩

lemma parseCol_ok {get : RawRecord → Option String} {batch : List RawRecord}
    (hne : batch ≠ [])
    (h : ∀ r ∈ batch, ((get r).bind parseDateTime).isSome = true) :
    ∃ ds, parseCol batch get = Except.ok ds := by
  have hany : (batch.any (fun r => (get r).isSome)) = true := by
    cases batch with
    | nil => exact absurd rfl hne
    | cons r rs =>
      have hr := h r (List.mem_cons_self r rs)
      cases hg : get r with
      | none => rw [hg] at hr; simp at hr
      | some s => simp [hg]
  obtain ⟨ds, hds⟩ := parseColAux_ok h
  exact ⟨ds, by simp [parseCol, hany, hds]⟩

lemma parseCol_singleton {get : RawRecord → Option String} {r : RawRecord}
    {s : String} {dt : DT} (hg : get r = some s)
    (hp : parseDateTime s = some dt) : parseCol [r] get = Except.ok [dt] := by
  simp [parseCol, parseColAux, hg, hp]

lemma preprocess_none_ok {batch : List RawRecord} (hne : batch ≠ [])
    (hp : ∀ r ∈ batch, recParses r = true) :
    preprocess batch none = Except.ok (batch.map (reindexRow batch), none) := by
  obtain ⟨fi, hfi⟩ := parseCol_ok hne (fun r hr => recParses_fechaI (hp r hr))
  obtain ⟨fo, hfo⟩ := parseCol_ok hne (fun r hr => recParses_fechaO (hp r hr))
  simp [preprocess, hfi, hfo]

lemma map_contractVec_congr {b1 b2 : List RawRecord}
    (hag : List.Forall₂ (fun r s =>
      r.opera = s.opera ∧ r.mes = s.mes ∧ r.tipovuelo = s.tipovuelo) b1 b2) :
    b1.map contractVec = b2.map contractVec := by
  induction hag with
  | nil => rfl
  | @cons a b l1 l2 ha ht ih =>
    simp only [List.map_cons, ih, List.cons.injEq, and_true]
    simp [contractVec, ha.1, ha.2.1, ha.2.2]

end Helpers

/-- C3 counterexample: the claim says `derive_high_season` is true for
every time of day on the last day of each range, but on
`2023-12-31 12:00:00` — a time on the last day of the December range — the
source returns 0, because the range endpoint carries time 00:00:00 and the
full timestamp exceeds it. -/
theorem is_high_season_last_day_noon_not_high :
    is_high_season_str "2023-12-31 12:00:00" = some 0 := by decide

/-- C3 (amended): `_is_high_season` returns 1 exactly when the timestamp
lies in Dec 15–31, Jan 1–Mar 3, Jul 15–31 or Sep 11–30 of its own year,
where each range's first day is included for every time of day but each
range's last day is included only at exactly midnight 00:00:00. -/
theorem is_high_season_characterization (dt : DT) (hd : 1 ≤ dt.day) :
    is_high_season dt = 1 ↔
      ((dt.month = 12 ∧ 15 ≤ dt.day ∧ dt.day ≤ 30)
        ∨ (dt.month = 12 ∧ dt.day = 31
            ∧ dt.hour = 0 ∧ dt.minute = 0 ∧ dt.second = 0)
        ∨ dt.month = 1 ∨ dt.month = 2
        ∨ (dt.month = 3 ∧ dt.day ≤ 2)
        ∨ (dt.month = 3 ∧ dt.day = 3
            ∧ dt.hour = 0 ∧ dt.minute = 0 ∧ dt.second = 0)
        ∨ (dt.month = 7 ∧ 15 ≤ dt.day ∧ dt.day ≤ 30)
        ∨ (dt.month = 7 ∧ dt.day = 31
            ∧ dt.hour = 0 ∧ dt.minute = 0 ∧ dt.second = 0)
        ∨ (dt.month = 9 ∧ 11 ≤ dt.day ∧ dt.day ≤ 29)
        ∨ (dt.month = 9 ∧ dt.day = 30
            ∧ dt.hour = 0 ∧ dt.minute = 0 ∧ dt.second = 0)) := by
  obtain ⟨y, mo, d, h, mi, s⟩ := dt
  rw [show is_high_season ⟨y, mo, d, h, mi, s⟩
      = if (DT.le ⟨y, 12, 15, 0, 0, 0⟩ ⟨y, mo, d, h, mi, s⟩
            ∧ DT.le ⟨y, mo, d, h, mi, s⟩ ⟨y, 12, 31, 0, 0, 0⟩)
          ∨ (DT.le ⟨y, 1, 1, 0, 0, 0⟩ ⟨y, mo, d, h, mi, s⟩
            ∧ DT.le ⟨y, mo, d, h, mi, s⟩ ⟨y, 3, 3, 0, 0, 0⟩)
          ∨ (DT.le ⟨y, 7, 15, 0, 0, 0⟩ ⟨y, mo, d, h, mi, s⟩
            ∧ DT.le ⟨y, mo, d, h, mi, s⟩ ⟨y, 7, 31, 0, 0, 0⟩)
          ∨ (DT.le ⟨y, 9, 11, 0, 0, 0⟩ ⟨y, mo, d, h, mi, s⟩
            ∧ DT.le ⟨y, mo, d, h, mi, s⟩ ⟨y, 9, 30, 0, 0, 0⟩) then
        1 else 0 from rfl]
  rw [ite_one_zero_eq_one]
  simp only [DT.le_mk, lt_self_iff_false, false_or, eq_self_iff_true, true_and,
    Nat.zero_le, and_true, Nat.not_lt_zero, Nat.le_zero] at hd ⊢
  constructor
  · intro hc
    rcases hc with ⟨h1, h2⟩ | ⟨h1, h2⟩ | ⟨h1, h2⟩ | ⟨h1, h2⟩
    · have hmo : mo = 12 := by omega
      subst hmo
      by_cases hday : d ≤ 30
      · exact Or.inl ⟨rfl, by omega, hday⟩
      · exact Or.inr (Or.inl ⟨rfl, by omega, by omega, by omega, by omega⟩)
    · rcases Nat.lt_or_ge mo 3 with hmo | hmo
      · have hmo12 : mo = 1 ∨ mo = 2 := by omega
        rcases hmo12 with rfl | rfl
        · exact Or.inr (Or.inr (Or.inl rfl))
        · exact Or.inr (Or.inr (Or.inr (Or.inl rfl)))
      · have hmo3 : mo = 3 := by omega
        subst hmo3
        by_cases hday : d ≤ 2
        · exact Or.inr (Or.inr (Or.inr (Or.inr (Or.inl ⟨rfl, hday⟩))))
        · exact Or.inr (Or.inr (Or.inr (Or.inr (Or.inr (Or.inl
            ⟨rfl, by omega, by omega, by omega, by omega⟩)))))
    · have hmo : mo = 7 := by omega
      subst hmo
      by_cases hday : d ≤ 30
      · exact Or.inr (Or.inr (Or.inr (Or.inr (Or.inr (Or.inr (Or.inl
          ⟨rfl, by omega, hday⟩))))))
      · exact Or.inr (Or.inr (Or.inr (Or.inr (Or.inr (Or.inr (Or.inr (Or.inl
          ⟨rfl, by omega, by omega, by omega, by omega⟩)))))))
    · have hmo : mo = 9 := by omega
      subst hmo
      by_cases hday : d ≤ 29
      · exact Or.inr (Or.inr (Or.inr (Or.inr (Or.inr (Or.inr (Or.inr (Or.inr
          (Or.inl ⟨rfl, by omega, hday⟩))))))))
      · exact Or.inr (Or.inr (Or.inr (Or.inr (Or.inr (Or.inr (Or.inr (Or.inr
          (Or.inr ⟨rfl, by omega, by omega, by omega, by omega⟩))))))))
  · intro hc
    rcases hc with ⟨h1, h2, h3⟩ | ⟨h1, h2, h3, h4, h5⟩ | h1 | h1 | ⟨h1, h2⟩
      | ⟨h1, h2, h3, h4, h5⟩ | ⟨h1, h2, h3⟩ | ⟨h1, h2, h3, h4, h5⟩ | ⟨h1, h2, h3⟩
      | ⟨h1, h2, h3, h4, h5⟩
    · exact Or.inl ⟨by omega, by omega⟩
    · exact Or.inl ⟨by omega, by omega⟩
    · exact Or.inr (Or.inl ⟨by omega, by omega⟩)
    · exact Or.inr (Or.inl ⟨by omega, by omega⟩)
    · exact Or.inr (Or.inl ⟨by omega, by omega⟩)
    · exact Or.inr (Or.inl ⟨by omega, by omega⟩)
    · exact Or.inr (Or.inr (Or.inl ⟨by omega, by omega⟩))
    · exact Or.inr (Or.inr (Or.inl ⟨by omega, by omega⟩))
    · exact Or.inr (Or.inr (Or.inr ⟨by omega, by omega⟩))
    · exact Or.inr (Or.inr (Or.inr ⟨by omega, by omega⟩))

/-- Witness for `is_high_season_characterization`: midnight of
2023-12-20 is high season. -/
theorem is_high_season_characterization_witness :
    is_high_season ⟨2023, 12, 20, 0, 0, 0⟩ = 1 :=
  (is_high_season_characterization ⟨2023, 12, 20, 0, 0, 0⟩ (by decide)).mpr
    (by left; exact ⟨rfl, by decide, by decide⟩)

/-- C5: `_get_period_day` maps every time strictly between 05:00 and 11:59
to morning, strictly between 12:00 and 18:59 to afternoon, strictly between
19:00 and 23:59 or strictly between 00:00 and 04:59 to night, and every
instant exactly equal to one of the eight bounds to no category.  Bounds
are expressed in seconds since midnight, which on well-formed times agrees
with Python's component-wise `time` comparison. -/
theorem get_period_day_spec (t : TimeHMS) (hmi : t.minute ≤ 59)
    (hs : t.second ≤ 59) :
    (5 * 3600 < t.toSecs ∧ t.toSecs < 11 * 3600 + 59 * 60 →
      get_period_day t = some "mañana")
    ∧ (12 * 3600 < t.toSecs ∧ t.toSecs < 18 * 3600 + 59 * 60 →
      get_period_day t = some "tarde")
    ∧ ((19 * 3600 < t.toSecs ∧ t.toSecs < 23 * 3600 + 59 * 60)
        ∨ (0 < t.toSecs ∧ t.toSecs < 4 * 3600 + 59 * 60) →
      get_period_day t = some "noche")
    ∧ (t.toSecs ∈ ([5 * 3600, 11 * 3600 + 59 * 60, 12 * 3600,
          18 * 3600 + 59 * 60, 19 * 3600, 23 * 3600 + 59 * 60, 0,
          4 * 3600 + 59 * 60] : List Nat) →
      get_period_day t = none) := by
  obtain ⟨h, mi, s⟩ := t
  simp only [TimeHMS.toSecs, List.mem_cons, List.not_mem_nil, or_false] at *
  refine ⟨?_, ?_, ?_, ?_⟩ <;>
    · intro hcond
      simp only [get_period_day, TimeHMS.lt_mk]
      split_ifs <;> first | rfl | (exfalso; omega)

/-- Witness for `get_period_day_spec`: 06:00:00 is morning and the bound
05:00:00 falls in no category. -/
theorem get_period_day_spec_witness :
    get_period_day ⟨6, 0, 0⟩ = some "mañana"
      ∧ get_period_day ⟨5, 0, 0⟩ = none :=
  ⟨(get_period_day_spec ⟨6, 0, 0⟩ (by decide) (by decide)).1 (by decide),
   (get_period_day_spec ⟨5, 0, 0⟩ (by decide) (by decide)).2.2.2 (by decide)⟩

/-- C1 counterexample: with label derivation disabled (`targetColumn =
none`), `preprocess` on a record that supplies only `OPERA`, `TIPOVUELO`
and `MES` does not succeed — it raises the missing-field error, because the
`period_day`/`high_season`/`min_diff` passes read the timestamp columns
unconditionally. -/
theorem preprocess_missing_timestamps_counterexample :
    preprocess [{ opera := "Avianca", tipovuelo := "N", mes := 7,
                  fechaI := none, fechaO := none }] none
      = Except.error PErr.missingField := rfl

/-- C1 (amended): `preprocess` requires `Fecha-I` and `Fecha-O` for every
record regardless of whether label derivation is requested — a missing
timestamp field produces the missing-field error for inference exactly as
for training — and succeeds at inference once both timestamps are supplied
and parseable (which is why the API layer injects dummy timestamps). -/
theorem preprocess_requires_timestamps (r : RawRecord) (tc : Option String) :
    (r.fechaI = none → preprocess [r] tc = Except.error PErr.missingField)
    ∧ (∀ s, r.fechaI = some s → (parseDateTime s).isSome = true →
        r.fechaO = none → preprocess [r] tc = Except.error PErr.missingField)
    ∧ (recParses r = true →
        ∃ feats, preprocess [r] none = Except.ok (feats, none)) := by
  refine ⟨?_, ?_, ?_⟩
  · intro hI
    simp [preprocess, parseCol, hI]
  · intro s hI hps hO
    obtain ⟨dt, hdt⟩ := Option.isSome_iff_exists.mp hps
    have h1 : parseCol [r] (fun x => x.fechaI) = Except.ok [dt] :=
      parseCol_singleton hI hdt
    have h2 : parseCol [r] (fun x => x.fechaO) = Except.error PErr.missingField := by
      simp [parseCol, hO]
    simp [preprocess, h1, h2]
  · intro hp
    exact ⟨[r].map (reindexRow [r]),
      preprocess_none_ok (by simp) (by simpa using hp)⟩

/-- Witness for `preprocess_requires_timestamps`: a record without
timestamps errors at inference, and the same fields with the API's dummy
timestamps preprocess successfully. -/
theorem preprocess_requires_timestamps_witness :
    preprocess [{ opera := "Avianca", tipovuelo := "N", mes := 7,
                  fechaI := none, fechaO := some "2023-01-01 10:15:00" }] none
      = Except.error PErr.missingField
    ∧ ∃ feats,
        preprocess [{ opera := "Avianca", tipovuelo := "N", mes := 7,
                      fechaI := some "2023-01-01 10:00:00",
                      fechaO := some "2023-01-01 10:15:00" }] none
          = Except.ok (feats, none) :=
  ⟨(preprocess_requires_timestamps _ none).1 rfl,
   (preprocess_requires_timestamps _ none).2.2 (by decide)⟩

/-- C2: whenever `preprocess` returns, every returned feature vector has
exactly the 10 contracted slots in the contracted order — slot value 1
exactly when the record's field equals the slot's category, so any
airline/month/flight-type value outside the contract contributes 0 to
every slot — and each slot value is 0 or 1. -/
theorem preprocess_feature_contract (batch : List RawRecord)
    (tc : Option String) (feats : List (List ℚ)) (lbls : Option (List Int))
    (h : preprocess batch tc = Except.ok (feats, lbls)) :
    feats = batch.map contractVec
    ∧ (∀ v ∈ feats, v.length = 10 ∧ ∀ x ∈ v, x = 0 ∨ x = 1) := by
  have hfeats : feats = batch.map (reindexRow batch) := by
    unfold preprocess at h
    repeat' split at h
    all_goals simp_all
  have hc : feats = batch.map contractVec := by
    rw [hfeats, map_reindexRow_eq]
  refine ⟨hc, ?_⟩
  intro v hv
  rw [hc] at hv
  obtain ⟨r, _, rfl⟩ := List.mem_map.mp hv
  constructor
  · simp [contractVec]
  · intro x hx
    simp only [contractVec, List.mem_cons, List.not_mem_nil, or_false] at hx
    rcases hx with rfl | rfl | rfl | rfl | rfl | rfl | rfl | rfl | rfl | rfl <;>
      (split <;> simp)

/-- Witness for `preprocess_feature_contract`: the spec's end-to-end
example record (Avianca, N, month 7) yields `[0,1,0,0,0,0,0,0,0,0]` — only
the `MES_7` slot set — with the timestamps the API injects. -/
theorem preprocess_feature_contract_witness :
    ([[(0 : ℚ), 1, 0, 0, 0, 0, 0, 0, 0, 0]] : List (List ℚ))
        = [({ opera := "Avianca", tipovuelo := "N", mes := 7,
              fechaI := some "2023-01-01 10:00:00",
              fechaO := some "2023-01-01 10:15:00" } : RawRecord)].map contractVec
    ∧ (∀ v ∈ ([[(0 : ℚ), 1, 0, 0, 0, 0, 0, 0, 0, 0]] : List (List ℚ)),
        v.length = 10 ∧ ∀ x ∈ v, x = 0 ∨ x = 1) :=
  preprocess_feature_contract _ none _ none rfl

/-- C6: for a training record with parseable timestamps, the derived label
is the indicator of `min_diff > 15`, and that comparison holds exactly when
the actual departure is strictly more than 900 seconds (15 minutes) after
the scheduled one — a difference of exactly 15 minutes or a negative
difference gives label 0. -/
theorem preprocess_delay_label (r : RawRecord) (sI sO : String) (dI dO : DT)
    (h1 : r.fechaI = some sI) (h2 : parseDateTime sI = some dI)
    (h3 : r.fechaO = some sO) (h4 : parseDateTime sO = some dO) :
    preprocess [r] (some "delay")
      = Except.ok ([reindexRow [r] r],
          some [if (15 : ℚ) < get_min_diff dI dO then (1 : Int) else 0])
    ∧ ((if (15 : ℚ) < get_min_diff dI dO then (1 : Int) else 0) = 1
        ↔ 900 < (dO.toSecs : Int) - (dI.toSecs : Int)) := by
  constructor
  · have hI : parseCol [r] (fun x => x.fechaI) = Except.ok [dI] :=
      parseCol_singleton h1 h2
    have hO : parseCol [r] (fun x => x.fechaO) = Except.ok [dO] :=
      parseCol_singleton h3 h4
    simp [preprocess, hI, hO]
  · have hiff : (15 : ℚ) < get_min_diff dI dO
        ↔ 900 < (dO.toSecs : Int) - (dI.toSecs : Int) := by
      unfold get_min_diff
      rw [lt_div_iff₀ (by norm_num : (0 : ℚ) < 60)]
      constructor <;> intro hx <;> exact_mod_cast hx
    split
    case isTrue h => exact iff_of_true rfl (hiff.mp h)
    case isFalse h =>
      exact iff_of_false (by norm_num) (fun hc => h (hiff.mpr hc))

/-- Witness for `preprocess_delay_label`: the spec's example — scheduled
2023-01-01 10:00:00, actual 10:16:00 — gives the stated label expression
and the 16-minute difference satisfies the 900-second bound form. -/
theorem preprocess_delay_label_witness :
    preprocess [{ opera := "Avianca", tipovuelo := "N", mes := 7,
                  fechaI := some "2023-01-01 10:00:00",
                  fechaO := some "2023-01-01 10:16:00" }] (some "delay")
      = Except.ok ([reindexRow
            [{ opera := "Avianca", tipovuelo := "N", mes := 7,
               fechaI := some "2023-01-01 10:00:00",
               fechaO := some "2023-01-01 10:16:00" }]
            { opera := "Avianca", tipovuelo := "N", mes := 7,
              fechaI := some "2023-01-01 10:00:00",
              fechaO := some "2023-01-01 10:16:00" }],
          some [if (15 : ℚ) < get_min_diff ⟨2023, 1, 1, 10, 0, 0⟩
              ⟨2023, 1, 1, 10, 16, 0⟩ then (1 : Int) else 0])
    ∧ ((if (15 : ℚ) < get_min_diff ⟨2023, 1, 1, 10, 0, 0⟩
          ⟨2023, 1, 1, 10, 16, 0⟩ then (1 : Int) else 0) = 1
        ↔ 900 < ((⟨2023, 1, 1, 10, 16, 0⟩ : DT).toSecs : Int)
            - ((⟨2023, 1, 1, 10, 0, 0⟩ : DT).toSecs : Int)) :=
  preprocess_delay_label _ _ _ _ _ rfl (by decide) rfl (by decide)

/-- C10: for inference (label derivation disabled), two batches that agree
record-by-record on `OPERA`, `MES` and `TIPOVUELO` and whose timestamp
fields are parseable produce identical `preprocess` results: the parsed
timestamps never influence the returned features. -/
theorem preprocess_inference_ignores_timestamps (b1 b2 : List RawRecord)
    (hag : List.Forall₂ (fun r s =>
      r.opera = s.opera ∧ r.mes = s.mes ∧ r.tipovuelo = s.tipovuelo) b1 b2)
    (hp1 : ∀ r ∈ b1, recParses r = true)
    (hp2 : ∀ r ∈ b2, recParses r = true) :
    preprocess b1 none = preprocess b2 none := by
  cases b1 with
  | nil =>
    cases hag
    rfl
  | cons r rs =>
    have hne2 : b2 ≠ [] := by cases hag; simp
    rw [preprocess_none_ok (by simp) hp1, preprocess_none_ok hne2 hp2,
      map_reindexRow_eq, map_reindexRow_eq, map_contractVec_congr hag]

/-- Witness for `preprocess_inference_ignores_timestamps`: the same
(OPERA, TIPOVUELO, MES) triple with two different timestamp pairs gives
identical results. -/
theorem preprocess_inference_ignores_timestamps_witness :
    preprocess [{ opera := "Grupo LATAM", tipovuelo := "I", mes := 10,
                  fechaI := some "2023-01-01 10:00:00",
                  fechaO := some "2023-01-01 10:15:00" }] none
      = preprocess [{ opera := "Grupo LATAM", tipovuelo := "I", mes := 10,
                      fechaI := some "2023-07-20 23:59:59",
                      fechaO := some "2023-12-31 00:00:00" }] none :=
  preprocess_inference_ignores_timestamps _ _
    (List.Forall₂.cons ⟨rfl, rfl, rfl⟩ List.Forall₂.nil)
    (by decide) (by decide)

section ClassifierHelpers

lemma insertUnique_01 (a : Int) (ha : a = 0 ∨ a = 1) (l : List Int)
    (hl : l = [] ∨ l = [0] ∨ l = [1] ∨ l = [0, 1]) :
    insertUnique a l = [] ∨ insertUnique a l = [0] ∨ insertUnique a l = [1]
      ∨ insertUnique a l = [0, 1] := by
  rcases ha with rfl | rfl <;> rcases hl with rfl | rfl | rfl | rfl <;> decide

lemma uniqueSorted_01 {y : List Int} (hy : ∀ l ∈ y, l = 0 ∨ l = 1) :
    uniqueSorted y = [] ∨ uniqueSorted y = [0] ∨ uniqueSorted y = [1]
      ∨ uniqueSorted y = [0, 1] := by
  induction y with
  | nil => exact Or.inl rfl
  | cons a ys ih =>
    have ha := hy a (List.mem_cons_self a ys)
    have ihh := ih (fun l hl => hy l (List.mem_cons_of_mem a hl))
    exact insertUnique_01 a ha _ ihh

lemma uniqueSorted_eq_01 {y : List Int} (hy : ∀ l ∈ y, l = 0 ∨ l = 1)
    (hlen : 2 ≤ (uniqueSorted y).length) : uniqueSorted y = [0, 1] := by
  rcases uniqueSorted_01 hy with h | h | h | h
  · rw [h] at hlen; simp at hlen
  · rw [h] at hlen; simp at hlen
  · rw [h] at hlen; simp at hlen
  · exact h

lemma sklearnFitCheck_ok {X : List (List ℚ)} {y : List Int} {cs : List Int}
    (h : sklearnFitCheck X y = Except.ok cs) :
    cs = uniqueSorted y ∧ 2 ≤ (uniqueSorted y).length
      ∧ X.length = y.length := by
  unfold sklearnFitCheck at h
  split_ifs at h with h1 h2 h3 h4
  all_goals cases h
  exact ⟨rfl, by omega, by omega⟩

lemma sklearnFitCheck_ok_iff (X : List (List ℚ)) (y : List Int)
    (hne : y ≠ []) :
    (∃ cs, sklearnFitCheck X y = Except.ok cs)
      ↔ X.length = y.length ∧ 2 ≤ (uniqueSorted y).length
          ∧ (badClasses y = []
              ∨ (uniqueSorted y).length - (badClasses y).length = 2) := by
  unfold sklearnFitCheck
  split_ifs with h1 h2 h3 h4
  · exact iff_of_false (by simp) (fun hc => h1 hc.1)
  · exact iff_of_false (by simp)
      (fun hc => hne (List.length_eq_zero.mp (by omega)))
  · exact iff_of_false (by simp) (fun hc => by omega)
  · refine iff_of_false (by simp) (fun hc => ?_)
    rcases hc.2.2 with hb | hb
    · exact h4.1 hb
    · exact h4.2 hb
  · refine iff_of_true ⟨_, rfl⟩ ⟨by omega, by omega, ?_⟩
    rcases not_and_or.mp h4 with h | h
    · exact Or.inl (not_not.mp h)
    · exact Or.inr (not_not.mp h)

lemma fit_ok_inversion {opt : Optimizer} {st st' : DelayModel}
    {X : List (List ℚ)} {y : List Int}
    (h : DelayModel.fit opt st X y = (st', Except.ok ())) :
    ∃ cfg, st' = some ⟨cfg,
        some ⟨uniqueSorted y, (opt X y).1, (opt X y).2⟩⟩
      ∧ 2 ≤ (uniqueSorted y).length := by
  unfold DelayModel.fit at h
  split_ifs at h with h0
  · simp at h
  · cases hch : sklearnFitCheck X y with
    | error e => rw [hch] at h; simp at h
    | ok cs =>
      rw [hch] at h
      obtain ⟨hcs, hlen, _⟩ := sklearnFitCheck_ok hch
      simp only [Prod.mk.injEq] at h
      exact ⟨_, by rw [← h.1, hcs], hlen⟩

lemma getD_01 (i : Nat) :
    (([0, 1] : List Int).getD i 0 = 0) ∨ (([0, 1] : List Int).getD i 0 = 1) := by
  match i with
  | 0 => exact Or.inl rfl
  | 1 => exact Or.inr rfl
  | n + 2 => exact Or.inl rfl

end ClassifierHelpers

/-- C4 counterexample: `fit` performs no label-domain validation of its
own, and the delegated library check accepts the label list `[0, 1, 2]`
even though it contains a value outside `{0, 1}` (the two weighted classes
0 and 1 are both present, so the dict class-weight check passes): the fit
succeeds and a trained model results. -/
theorem fit_accepts_label_outside_01 :
    (DelayModel.fit (fun _ _ => ([], [])) none [[1], [1], [1]] [0, 1, 2]).2
      = Except.ok ()
    ∧ ∃ m fs, (DelayModel.fit (fun _ _ => ([], [])) none
        [[1], [1], [1]] [0, 1, 2]).1 = some m ∧ m.fitted = some fs :=
  ⟨rfl, _, _, rfl, rfl⟩

/-- C4 (amended): on a nonempty target, `fit` succeeds exactly when the
features and labels have equal length, at least two distinct labels occur,
and the class-weight dict `{0, 1}` is consistent with the observed classes
(every label in `{0,1}`, or exactly the two weighted classes present) — so
a length mismatch or a label set missing 0 or 1 fails, but a label set
strictly containing `{0,1}` trains successfully; whenever the delegated fit
fails, the stored classifier is left unfitted (no trained model results). -/
theorem fit_validation (opt : Optimizer) (X : List (List ℚ))
    (y : List Int) (hne : y ≠ []) :
    ((DelayModel.fit opt none X y).2 = Except.ok ()
      ↔ X.length = y.length ∧ 2 ≤ (uniqueSorted y).length
          ∧ (badClasses y = []
              ∨ (uniqueSorted y).length - (badClasses y).length = 2))
    ∧ (∀ e, (DelayModel.fit opt none X y).2 = Except.error e →
        ∀ m, (DelayModel.fit opt none X y).1 = some m → m.fitted = none) := by
  have h0 : ¬(y.length = 0) := fun h => hne (List.length_eq_zero.mp h)
  constructor
  · constructor
    · intro hok
      apply (sklearnFitCheck_ok_iff X y hne).mp
      unfold DelayModel.fit at hok
      rw [if_neg h0] at hok
      cases hch : sklearnFitCheck X y with
      | error e => rw [hch] at hok; simp at hok
      | ok cs => exact ⟨cs, rfl⟩
    · intro hconds
      obtain ⟨cs, hch⟩ := (sklearnFitCheck_ok_iff X y hne).mpr hconds
      unfold DelayModel.fit
      rw [if_neg h0, hch]
  · intro e he m hm
    unfold DelayModel.fit at he hm
    rw [if_neg h0] at he hm
    cases hch : sklearnFitCheck X y with
    | error e2 =>
      rw [hch] at hm
      simp only [Option.some.injEq] at hm
      rw [← hm]
    | ok cs => rw [hch] at he; simp at he

/-- Witness for `fit_validation`: labels `[0, 1]` with two feature rows fit
successfully. -/
theorem fit_validation_witness :
    (DelayModel.fit (fun _ _ => ([], [])) none [[1], [2]] [0, 1]).2
      = Except.ok () :=
  (fit_validation (fun _ _ => ([], [])) [[1], [2]] [0, 1] (by decide)).1.mpr
    ⟨rfl, by decide, by decide⟩

/-- C7: for every nonempty training set with labels in `{0,1}`, the `fit`
call stores a classifier configured with class weight
`count(class 0)/total` for class 1 and `count(class 1)/total` for class 0,
and the fixed random seed 42 (src/challenge/model.py lines 140-148). -/
theorem fit_class_weights (opt : Optimizer) (st : DelayModel)
    (X : List (List ℚ)) (y : List Int)
    (_hy : ∀ l ∈ y, l = 0 ∨ l = 1) (hne : y ≠ []) :
    ∃ fs, (DelayModel.fit opt st X y).1
      = some ⟨⟨(countLabel y 0 : ℚ) / (y.length : ℚ),
               (countLabel y 1 : ℚ) / (y.length : ℚ), 42⟩, fs⟩ := by
  have h0 : ¬(y.length = 0) := fun h => hne (List.length_eq_zero.mp h)
  unfold DelayModel.fit
  rw [if_neg h0]
  cases hch : sklearnFitCheck X y with
  | error e => exact ⟨none, rfl⟩
  | ok cs => exact ⟨some ⟨cs, (opt X y).1, (opt X y).2⟩, rfl⟩

/-- Witness for `fit_class_weights` at labels `[0, 1]`. -/
theorem fit_class_weights_witness :
    ∃ fs, (DelayModel.fit (fun _ _ => ([], [])) none [[1], [2]] [0, 1]).1
      = some ⟨⟨(countLabel [0, 1] 0 : ℚ) / (([0, 1] : List Int).length : ℚ),
               (countLabel [0, 1] 1 : ℚ) / (([0, 1] : List Int).length : ℚ),
               42⟩, fs⟩ :=
  fit_class_weights (fun _ _ => ([], [])) none [[1], [2]] [0, 1]
    (by decide) (by decide)

/-- C8: after a successful `fit` on labels drawn from `{0,1}` (with the
optimizer left completely arbitrary, covering the library's actual one),
`predict` returns one label per input feature vector, in input order (it is
the map of the per-row decision over the input list), and every returned
label is 0 or 1, because `classes_` is exactly `[0, 1]`. -/
theorem predict_after_fit (opt : Optimizer) (st st' : DelayModel)
    (X feats : List (List ℚ)) (y : List Int)
    (hy : ∀ l ∈ y, l = 0 ∨ l = 1)
    (hfit : DelayModel.fit opt st X y = (st', Except.ok ())) :
    ∃ f : FittedState, f.classes = [0, 1]
      ∧ DelayModel.predict st' feats = Except.ok (feats.map (skPredictOne f))
      ∧ (feats.map (skPredictOne f)).length = feats.length
      ∧ ∀ o ∈ feats.map (skPredictOne f), o = 0 ∨ o = 1 := by
  obtain ⟨cfg, hst', hlen⟩ := fit_ok_inversion hfit
  have hcls : uniqueSorted y = [0, 1] := uniqueSorted_eq_01 hy hlen
  refine ⟨⟨uniqueSorted y, (opt X y).1, (opt X y).2⟩, by rw [hcls],
    ?_, List.length_map _ _, ?_⟩
  · rw [hst']
    rfl
  · intro o ho
    obtain ⟨x, _, rfl⟩ := List.mem_map.mp ho
    show (uniqueSorted y).getD _ 0 = 0 ∨ (uniqueSorted y).getD _ 0 = 1
    rw [hcls]
    exact getD_01 _

/-- Witness for `predict_after_fit`: fit on labels `[0, 1]`, then predict
on one all-zero feature vector. -/
theorem predict_after_fit_witness :
    ∃ f : FittedState, f.classes = [0, 1]
      ∧ DelayModel.predict
          (DelayModel.fit (fun _ _ => ([], [])) none [[1], [2]] [0, 1]).1
          [[0, 0, 0, 0, 0, 0, 0, 0, 0, 0]]
          = Except.ok (([[(0 : ℚ), 0, 0, 0, 0, 0, 0, 0, 0, 0]]).map
              (skPredictOne f))
      ∧ (([[(0 : ℚ), 0, 0, 0, 0, 0, 0, 0, 0, 0]]).map (skPredictOne f)).length
          = ([[(0 : ℚ), 0, 0, 0, 0, 0, 0, 0, 0, 0]] : List (List ℚ)).length
      ∧ ∀ o ∈ ([[(0 : ℚ), 0, 0, 0, 0, 0, 0, 0, 0, 0]]).map (skPredictOne f),
          o = 0 ∨ o = 1 := by
  have h2 : (DelayModel.fit (fun _ _ => ([], [])) none [[1], [2]] [0, 1]).2
      = Except.ok () := rfl
  exact predict_after_fit (fun _ _ => ([], [])) none _ [[1], [2]]
    [[0, 0, 0, 0, 0, 0, 0, 0, 0, 0]] [0, 1] (by decide)
    (by rw [← h2])

/-- C9 counterexample: a `fit` call that fails inside the library (labels
all 0, a single class) still assigns a classifier object to `_model`
first; the following `predict` call does not fail with the source's
unfitted-model `ValueError` (it fails with the library's not-fitted error
instead), even though no successful fit has completed. -/
theorem predict_after_failed_fit_counterexample :
    (DelayModel.fit (fun _ _ => ([], [])) none [[1], [1]] [0, 0]).2
      ≠ Except.ok ()
    ∧ DelayModel.predict
        (DelayModel.fit (fun _ _ => ([], [])) none [[1], [1]] [0, 0]).1
        [[0]] ≠ Except.error PredErr.unfittedModelError := by
  constructor
  · have h : (DelayModel.fit (fun _ _ => ([], [])) none [[1], [1]] [0, 0]).2
        = Except.error FitErr.singleClass := rfl
    rw [h]
    intro hc
    exact Except.noConfusion hc
  · have h : DelayModel.predict
        (DelayModel.fit (fun _ _ => ([], [])) none [[1], [1]] [0, 0]).1 [[0]]
        = Except.error PredErr.notFittedError := rfl
    rw [h]
    intro hc
    injection hc with hc2
    exact PredErr.noConfusion hc2

/-- C9 (amended): `predict` fails with the unfitted-model `ValueError`
exactly when `_model` is still `None` — that is, before any `fit` call has
reached the model-assignment step; every `fit` call on a nonempty target
assigns the model, so after it (even if the underlying training failed
with a different error) `predict` never raises that particular error, and
in particular never after a successful fit. -/
theorem predict_unfitted_iff (st : DelayModel) (X : List (List ℚ)) :
    (DelayModel.predict st X = Except.error PredErr.unfittedModelError
      ↔ st = none)
    ∧ (∀ opt Xf y, y ≠ [] → (DelayModel.fit opt st Xf y).1 ≠ none) := by
  constructor
  · cases st with
    | none => simp [DelayModel.predict]
    | some m => cases hm : m.fitted <;> simp [DelayModel.predict, hm]
  · intro opt Xf y hne
    have h0 : ¬(y.length = 0) := fun h => hne (List.length_eq_zero.mp h)
    unfold DelayModel.fit
    rw [if_neg h0]
    cases hch : sklearnFitCheck Xf y <;> simp

/-- Witness for `predict_unfitted_iff`: before any fit, predict raises the
unfitted-model error; a fit call on labels `[0, 1]` assigns the model. -/
theorem predict_unfitted_iff_witness :
    DelayModel.predict (none : DelayModel) []
      = Except.error PredErr.unfittedModelError
    ∧ (DelayModel.fit (fun _ _ => ([], [])) (none : DelayModel)
        [[1], [2]] [0, 1]).1 ≠ none :=
  ⟨(predict_unfitted_iff none []).1.mpr rfl,
   (predict_unfitted_iff none []).2 (fun _ _ => ([], []))
     [[1], [2]] [0, 1] (by decide)⟩
